import Mathlib

/-!
Verification development for the AWS importer of the hashr repository.

The definitions below are a shallow embedding of the Go source
(`importers/aws/aws.go`, `importers/aws/aws_hashr.go` and the workflow file
containing `Preprocess`, `copy`, `generate`, `download` and `cleanup`).
External collaborators (the EC2 control plane, the SSH transport, S3) are
passed in as explicit oracle parameters: a function from the attempt index to
the response the collaborator gives on that attempt, or a single `Except`
value for a one-shot call.  Machine integers are modelled as `Nat` reduced
modulo `2 ^ 32` where the Go code uses 32-bit arithmetic.
-/

namespace HashrAws

/-- Volume lifecycle states, from the `types.VolumeState` string enum of the
AWS SDK used by the source. -/
inductive VolumeState
  | creating
  | available
  | inUse
  | deleting
  | deleted
  | error
  deriving DecidableEq

/-- Rendering of a volume state, as the SDK's string values. -/
def VolumeState.str : VolumeState → String
  | .creating => "creating"
  | .available => "available"
  | .inUse => "in-use"
  | .deleting => "deleting"
  | .deleted => "deleted"
  | .error => "error"

/-- Volume attachment states, from `types.VolumeAttachmentState`. -/
inductive VolumeAttachmentState
  | attaching
  | attached
  | detaching
  | detached
  deriving DecidableEq

/-- Image lifecycle states, from `types.ImageState`. -/
inductive ImageState
  | pending
  | available
  | invalid
  | deregistered
  | transient
  | failed
  | error
  deriving DecidableEq

/-!
SHA-256, embedded from Go's `crypto/sha256.Sum256` as used by
`QuickSHA256Hash`.  Words are `Nat` values kept below `2 ^ 32`.
-/

/-- Reduction to a 32-bit word. -/
def w32 (x : Nat) : Nat := x % 2 ^ 32

/-- Right rotation of a 32-bit word. -/
def rotr (n x : Nat) : Nat := w32 ((x >>> n) ||| (x <<< (32 - n)))

/-- The SHA-256 Ch function. -/
def shaCh (e f g : Nat) : Nat := (e &&& f) ^^^ ((4294967295 - e) &&& g)

/-- The SHA-256 Maj function. -/
def shaMaj (a b c : Nat) : Nat := (a &&& b) ^^^ (a &&& c) ^^^ (b &&& c)

/-- The SHA-256 big sigma-0 function. -/
def bigSigma0 (x : Nat) : Nat := rotr 2 x ^^^ rotr 13 x ^^^ rotr 22 x

/-- The SHA-256 big sigma-1 function. -/
def bigSigma1 (x : Nat) : Nat := rotr 6 x ^^^ rotr 11 x ^^^ rotr 25 x

/-- The SHA-256 small sigma-0 function. -/
def smallSigma0 (x : Nat) : Nat := rotr 7 x ^^^ rotr 18 x ^^^ (x >>> 3)

/-- The SHA-256 small sigma-1 function. -/
def smallSigma1 (x : Nat) : Nat := rotr 17 x ^^^ rotr 19 x ^^^ (x >>> 10)

/-- The 64 SHA-256 round constants (decimal). -/
def kConsts : List Nat :=
  [1116352408, 1899447441, 3049323471, 3921009573,
   961987163, 1508970993, 2453635748, 2870763221,
   3624381080, 310598401, 607225278, 1426881987,
   1925078388, 2162078206, 2614888103, 3248222580,
   3835390401, 4022224774, 264347078, 604807628,
   770255983, 1249150122, 1555081692, 1996064986,
   2554220882, 2821834349, 2952996808, 3210313671,
   3336571891, 3584528711, 113926993, 338241895,
   666307205, 773529912, 1294757372, 1396182291,
   1695183700, 1986661051, 2177026350, 2456956037,
   2730485921, 2820302411, 3259730800, 3345764771,
   3516065817, 3600352804, 4094571909, 275423344,
   430227734, 506948616, 659060556, 883997877,
   958139571, 1322822218, 1537002063, 1747873779,
   1955562222, 2024104815, 2227730452, 2361852424,
   2428436474, 2756734187, 3204031479, 3329325298]

/-- The eight working variables of a SHA-256 compression state. -/
structure Digest where
  a : Nat
  b : Nat
  c : Nat
  d : Nat
  e : Nat
  f : Nat
  g : Nat
  h : Nat

/-- The SHA-256 initial hash value (decimal). -/
def initDigest : Digest :=
  ⟨1779033703, 3144134277, 1013904242, 2773480762,
   1359893119, 2600822924, 528734635, 1541459225⟩

/-- One SHA-256 round over the working variables. -/
def shaRound (d : Digest) (ki wi : Nat) : Digest :=
  let t1 := w32 (d.h + bigSigma1 d.e + shaCh d.e d.f d.g + ki + wi)
  let t2 := w32 (bigSigma0 d.a + shaMaj d.a d.b d.c)
  ⟨w32 (t1 + t2), d.a, d.b, d.c, w32 (d.d + t1), d.e, d.f, d.g⟩

/-- Folding the 64 rounds over the (constant, schedule-word) pairs. -/
def shaRounds (d : Digest) : List (Nat × Nat) → Digest
  | [] => d
  | (ki, wi) :: rest => shaRounds (shaRound d ki wi) rest

/-- Extension of the 16 chunk words to the 64-word message schedule:
each step appends one word. -/
def schedule (w : List Nat) : Nat → List Nat
  | 0 => w
  | n + 1 =>
    let i := w.length
    let nw := w32 (w.getD (i - 16) 0 + smallSigma0 (w.getD (i - 15) 0) +
      w.getD (i - 7) 0 + smallSigma1 (w.getD (i - 2) 0))
    schedule (w ++ [nw]) n

/-- Compression of one 16-word chunk into the running digest. -/
def compress (hs : Digest) (chunkWords : List Nat) : Digest :=
  let ws := schedule chunkWords 48
  let d := shaRounds hs (kConsts.zip ws)
  ⟨w32 (hs.a + d.a), w32 (hs.b + d.b), w32 (hs.c + d.c), w32 (hs.d + d.d),
   w32 (hs.e + d.e), w32 (hs.f + d.f), w32 (hs.g + d.g), w32 (hs.h + d.h)⟩

/-- Big-endian bytes of the 64-bit message bit length. -/
def lenBytes (n : Nat) : List Nat :=
  [(n >>> 56) % 256, (n >>> 48) % 256, (n >>> 40) % 256, (n >>> 32) % 256,
   (n >>> 24) % 256, (n >>> 16) % 256, (n >>> 8) % 256, n % 256]

/-- SHA-256 padding: a 0x80 byte, zeros to 56 mod 64, then the bit length. -/
def padBytes (ms : List Nat) : List Nat :=
  let len := ms.length
  let zeros := (119 - len % 64) % 64
  ms ++ [0x80] ++ List.replicate zeros 0 ++ lenBytes (8 * len)

/-- Grouping of bytes into big-endian 32-bit words (the input length is a
multiple of four after padding). -/
def bytesToWords : Nat → List Nat → List Nat
  | 0, _ => []
  | fuel + 1, b0 :: b1 :: b2 :: b3 :: rest =>
    (((b0 * 256 + b1) * 256 + b2) * 256 + b3) :: bytesToWords fuel rest
  | _ + 1, _ => []

/-- Grouping of words into 16-word chunks. -/
def chunkWords : Nat → List Nat → List (List Nat)
  | 0, _ => []
  | _ + 1, [] => []
  | fuel + 1, ws => ws.take 16 :: chunkWords fuel (ws.drop 16)

/-- The SHA-256 digest of a byte list, as eight 32-bit words. -/
def sha256Words (ms : List Nat) : Digest :=
  let padded := padBytes ms
  let ws := bytesToWords padded.length padded
  (chunkWords ws.length ws).foldl compress initDigest

/-- Lowercase hexadecimal digit, as Go's percent-x formatting produces. -/
def hexChar (n : Nat) : Char :=
  if n < 10 then Char.ofNat (48 + n) else Char.ofNat (87 + n)

/-- The eight hexadecimal characters of one 32-bit word. -/
def wordHexChars (w : Nat) : List Char :=
  [hexChar ((w >>> 28) % 16), hexChar ((w >>> 24) % 16),
   hexChar ((w >>> 20) % 16), hexChar ((w >>> 16) % 16),
   hexChar ((w >>> 12) % 16), hexChar ((w >>> 8) % 16),
   hexChar ((w >>> 4) % 16), hexChar (w % 16)]

/-- The lowercase-hex SHA-256 digest string of a byte list, as the source's
`fmt.Sprintf` of `sha256.Sum256`. -/
def sha256hex (ms : List Nat) : String :=
  let d := sha256Words ms
  String.mk (wordHexChars d.a ++ wordHexChars d.b ++ wordHexChars d.c ++
    wordHexChars d.d ++ wordHexChars d.e ++ wordHexChars d.f ++
    wordHexChars d.g ++ wordHexChars d.h)

/-- UTF-8 encoding of one character, as Go's byte-slice conversion of a
string produces. -/
def encodeChar (c : Char) : List Nat :=
  let n := c.toNat
  if n < 128 then [n]
  else if n < 2048 then [192 + (n >>> 6), 128 + (n % 64)]
  else if n < 65536 then
    [224 + (n >>> 12), 128 + ((n >>> 6) % 64), 128 + (n % 64)]
  else
    [240 + (n >>> 18), 128 + ((n >>> 12) % 64), 128 + ((n >>> 6) % 64),
     128 + (n % 64)]

/-- UTF-8 bytes of a string, as Go's byte-slice conversion. -/
def utf8Bytes (s : String) : List Nat := (s.data.map encodeChar).flatten

/-!
Data model, from the fields of `types.Image`, `types.Snapshot`,
`types.VolumeAttachment` and the `AwsImage` struct that the embedded
functions read.
-/

/-- One block-device mapping of an image: the backing snapshot identifier
(`Ebs.SnapshotId`) and the declared size (`Ebs.VolumeSize`). -/
structure BlockDeviceMapping where
  snapshotId : String
  volumeSize : Int
  deriving DecidableEq

/-- The fields of `types.Image` that the embedded functions read. -/
structure Image where
  imageId : String
  creationDate : String
  deprecationTime : String
  name : String
  description : String
  state : ImageState
  blockDeviceMappings : List BlockDeviceMapping
  deriving DecidableEq

/-- The fields of `types.Snapshot` that `generate` reads: the snapshot
identifier and the bound-volume identifier (`vol-ffffffff` when the snapshot
is not bound to a real volume). -/
structure Snapshot where
  snapshotId : String
  volumeId : String
  deriving DecidableEq

/-- The fields of `types.VolumeAttachment` that `waitForAttachmentState`
reads. -/
structure VolumeAttachment where
  instanceId : String
  state : VolumeAttachmentState
  deriving DecidableEq

/-- The `AwsImage` struct of the workflow file (fields read or written by the
embedded methods). -/
structure AwsImage where
  imageId : String
  image : Option Image
  sourceImageId : String
  sourceImage : Option Image
  deviceName : String
  archiveName : String
  volumeId : String
  maxWaitDuration : Nat
  localPath : String
  remotePath : String
  bucketName : String
  quickSha256hash : String
  deriving DecidableEq

/-- An `AwsImage` as `DiscoverRepo` constructs it from a discovered source
image (remaining fields zero-valued). -/
def mkAwsImage (img : Image) : AwsImage :=
  { imageId := ""
    image := none
    sourceImageId := img.imageId
    sourceImage := some img
    deviceName := ""
    archiveName := img.imageId ++ "-raw.dd.gz"
    volumeId := ""
    maxWaitDuration := 0
    localPath := ""
    remotePath := ""
    bucketName := ""
    quickSha256hash := "" }

/-- The byte string hashed by `QuickSHA256Hash`: the concatenation of the
source image's `ImageId`, `CreationDate` and `DeprecationTime`, with no
separator. -/
def quickHashData (img : Image) : String :=
  img.imageId ++ img.creationDate ++ img.deprecationTime

/-- The `QuickSHA256Hash` method.  `getImageDetail` is the `ahashr` client
oracle: `none` models the uninitialized (`nil`) client; the method returns
the computed (or cached) hash together with the updated receiver. -/
def quickSHA256Hash (getImageDetail : Option (String → Except String Image))
    (a : AwsImage) : Except String (String × AwsImage) :=
  if a.quickSha256hash ≠ "" then .ok (a.quickSha256hash, a)
  else
    match a.sourceImage with
    | some img =>
      let h := sha256hex (utf8Bytes (quickHashData img))
      .ok (h, { a with quickSha256hash := h })
    | none =>
      if a.sourceImageId = "" then
        .error "source image ID is empty and source image object is nil"
      else
        match getImageDetail with
        | none => .error "awsHashR object is not initialized"
        | some get =>
          match get a.sourceImageId with
          | .error e =>
            .error ("error getting details of the source AMI " ++
              a.sourceImageId ++ ": " ++ e)
          | .ok img =>
            let h := sha256hex (utf8Bytes (quickHashData img))
            .ok (h,
              { a with sourceImage := some img, quickSha256hash := h })

/-!
waitForVolumeState (`aws_hashr.go`).  The EC2 control plane is the oracle
`getVolumeState`, indexed by the attempt number.  Each loop iteration issues
exactly one state query; the second component of the result is the total
number of queries issued.
-/

/-- Timeout message of `waitForVolumeState`, as formatted by the source. -/
def volumeTimeoutMsg (volumeId : String) (targetState : VolumeState)
    (maxWait : Nat) : String :=
  "volume " ++ volumeId ++ " is not in the target state " ++
    targetState.str ++ " within " ++ toString maxWait ++ " seconds"

/-- Loop body of `waitForVolumeState`: `i` is the number of queries already
issued, the fuel is the remaining iteration budget.  A query error sleeps and
continues; a query equal to the target state returns success. -/
def waitForVolumeStateAux (getVolumeState : Nat → Except String VolumeState)
    (targetState : VolumeState) (msg : String) :
    Nat → Nat → Except String Unit × Nat
  | i, 0 => (.error msg, i)
  | i, fuel + 1 =>
    match getVolumeState i with
    | .error _ => waitForVolumeStateAux getVolumeState targetState msg (i + 1) fuel
    | .ok s =>
      if s = targetState then (.ok (), i + 1)
      else waitForVolumeStateAux getVolumeState targetState msg (i + 1) fuel

/-- The `waitForVolumeState` wait loop with its attempt budget
`maxWaitDuration`. -/
def waitForVolumeState (getVolumeState : Nat → Except String VolumeState)
    (volumeId : String) (targetState : VolumeState) (maxWait : Nat) :
    Except String Unit × Nat :=
  waitForVolumeStateAux getVolumeState targetState
    (volumeTimeoutMsg volumeId targetState maxWait) 0 maxWait

/-!
waitForAttachmentState (`aws_hashr.go`).  The oracle `getAttachments` is the
per-attempt response of `GetVolumeAttachment`.
-/

/-- Timeout message of `waitForAttachmentState`, as formatted by the
source. -/
def attachTimeoutMsg (volumeId instanceId : String) (maxWait : Nat) : String :=
  "volume " ++ volumeId ++ " did not attach to the instance " ++ instanceId ++
    " within " ++ toString maxWait ++ " seconds"

/-- Loop body of `waitForAttachmentState`: an attachment satisfies the wait
exactly when its state is the target state and its instance identifier is the
requested instance. -/
def waitForAttachmentStateAux
    (getAttachments : Nat → Except String (List VolumeAttachment))
    (instanceId : String) (targetState : VolumeAttachmentState)
    (msg : String) : Nat → Nat → Except String Unit
  | _, 0 => .error msg
  | i, fuel + 1 =>
    match getAttachments i with
    | .error _ =>
      waitForAttachmentStateAux getAttachments instanceId targetState msg
        (i + 1) fuel
    | .ok atts =>
      if ∃ att ∈ atts, att.state = targetState ∧ att.instanceId = instanceId
      then .ok ()
      else waitForAttachmentStateAux getAttachments instanceId targetState msg
        (i + 1) fuel

/-- The `waitForAttachmentState` wait loop with its attempt budget. -/
def waitForAttachmentState
    (getAttachments : Nat → Except String (List VolumeAttachment))
    (volumeId instanceId : String) (targetState : VolumeAttachmentState)
    (maxWait : Nat) : Except String Unit :=
  waitForAttachmentStateAux getAttachments instanceId targetState
    (attachTimeoutMsg volumeId instanceId maxWait) 0 maxWait

/-- Decidable equality of `Except` results, for evaluating the embedded
functions on concrete inputs. -/
instance {ε α : Type} [DecidableEq ε] [DecidableEq α] :
    DecidableEq (Except ε α) := fun a b =>
  match a, b with
  | .ok x, .ok y => decidable_of_iff (x = y) (by simp)
  | .error x, .error y => decidable_of_iff (x = y) (by simp)
  | .ok _, .error _ => isFalse (by simp)
  | .error _, .ok _ => isFalse (by simp)

/-!
GetAvailableDeviceName (`aws_hashr.go`).  The SSH listing of used devices is
the `sshOutput` parameter: the combined output of the remote device listing
command, or the error of the failed command.
-/

/-- The fixed ordered suffix alphabet scanned by the allocator. -/
def deviceIds : List String :=
  ["i", "j", "k", "l", "m", "n", "o", "p", "q", "r", "s", "t", "u", "v",
   "w", "x", "y", "z"]

/-- First-fit scan of the suffix list against the used-device list. -/
def scanDeviceIds (usedDevices : List String) : List String → Except String String
  | [] => .error "no free device to use in attachment"
  | c :: rest =>
    if ("/dev/sd" ++ c) ∈ usedDevices then scanDeviceIds usedDevices rest
    else .ok ("/dev/sd" ++ c)

/-- The `GetAvailableDeviceName` function: a failed remote listing yields the
fixed name `/dev/sdh` with a nil error; a successful listing is split on
newlines and scanned first-fit over `deviceIds`. -/
def getAvailableDeviceName (sshOutput : Except String String) :
    Except String String :=
  match sshOutput with
  | .error _ => .ok "/dev/sdh"
  | .ok output => scanDeviceIds (output.splitOn "\n") deviceIds

/-!
DeleteVolume and DeregisterImage (`aws_hashr.go`).  Each is a thin wrapper
over one control-plane call, whose response is the `apiResult` parameter.
-/

/-- The `DeleteVolume` function: wraps the client error, otherwise
succeeds. -/
def deleteVolume (volumeId : String) (apiResult : Except String Unit) :
    Except String Unit :=
  match apiResult with
  | .error e => .error ("error deleting the volume " ++ volumeId ++ ": " ++ e)
  | .ok _ => .ok ()

/-- The `DeregisterImage` function: wraps the client error, otherwise
succeeds. -/
def deregisterImage (imageId : String) (apiResult : Except String Unit) :
    Except String Unit :=
  match apiResult with
  | .error e => .error ("error deregistering image " ++ imageId ++ ": " ++ e)
  | .ok _ => .ok ()

/-- Behavior of the EC2 DeleteVolume endpoint at the interface boundary: the
control plane rejects a delete of a volume that does not exist with an
InvalidVolume.NotFound error. -/
def ec2DeleteVolumeApi (existingVolumes : List String) (volumeId : String) :
    Except String Unit :=
  if volumeId ∈ existingVolumes then .ok ()
  else .error ("InvalidVolume.NotFound: The volume " ++ volumeId ++
    " does not exist")

/-- Behavior of the EC2 DeregisterImage endpoint at the interface boundary:
the control plane rejects a deregister of an image that is no longer
registered with an InvalidAMIID.Unavailable error. -/
def ec2DeregisterImageApi (existingImages : List String) (imageId : String) :
    Except String Unit :=
  if imageId ∈ existingImages then .ok ()
  else .error ("InvalidAMIID.Unavailable: The image ID " ++ imageId ++
    " is no longer available")

/-!
The copy phase of the workflow file.  The poll for the copied image queries
`GetImageDetail` once per iteration; the oracle is indexed by the attempt
number.  An error from the query is returned immediately (the loop does not
continue past it).
-/

/-- Poll of the copy phase: stops with `some img` at the first attempt whose
image is in state available, with `none` when the budget is exhausted, and
with the query's error as soon as one query fails. -/
def copyLoopAux (getImageDetail : Nat → Except String Image) :
    Nat → Nat → Except String (Option Image)
  | _, 0 => .ok none
  | i, fuel + 1 =>
    match getImageDetail i with
    | .error e => .error e
    | .ok img =>
      if img.state = ImageState.available then .ok (some img)
      else copyLoopAux getImageDetail (i + 1) fuel

/-- The `copy` phase: precondition checks, region query, `CopyImage` call,
then the availability poll.  On success it returns the new image identifier
and the image detail recorded in the workflow state. -/
def copyPhase (sourceImageId : String) (sourceImage : Option Image)
    (getRegion : Except String String) (copyImage : Except String String)
    (getImageDetail : Nat → Except String Image) (maxWait : Nat) :
    Except String (String × Image) :=
  if sourceImageId = "" then .error "source AMI does not exist"
  else
    match sourceImage with
    | none => .error "source image does not exist"
    | some _ =>
      match getRegion with
      | .error e => .error e
      | .ok _ =>
        match copyImage with
        | .error e => .error e
        | .ok imageId =>
          match copyLoopAux getImageDetail 0 maxWait with
          | .error e => .error e
          | .ok none =>
            .error ("unable to get image details for image ID " ++ imageId)
          | .ok (some img) => .ok (imageId, img)

/-!
The volume-resolution step of the `generate` phase: the first block-device
mapping's snapshot is looked up, and a volume is created only when the
snapshot's bound-volume identifier is the unbound sentinel `vol-ffffffff`.
The result carries the list of `CreateVolume` invocations (snapshot, size,
zone) the step issued.
-/

/-- Volume resolution of `generate`.  `getSnapshot` is the response of
`GetSnapshot` for the first mapping's snapshot; `createVolume` is the
`CreateVolume` collaborator. -/
def resolveVolume (imageId : String) (mappings : List BlockDeviceMapping)
    (getSnapshot : Except String Snapshot)
    (createVolume : String → Int → String → Except String String)
    (region : String) :
    Except String (String × List (String × Int × String)) :=
  match mappings with
  | [] => .error ("no snapshots in the image " ++ imageId)
  | m0 :: _ =>
    match getSnapshot with
    | .error e => .error e
    | .ok snap =>
      if snap.volumeId = "vol-ffffffff" then
        match createVolume m0.snapshotId m0.volumeSize region with
        | .error e => .error e
        | .ok v => .ok (v, [(m0.snapshotId, m0.volumeSize, region)])
      else .ok (snap.volumeId, [])

/-!
The cleanup phase of the workflow file.  After `DeleteVolume` and
`DeregisterImage`, the phase polls `VolumeExists` and `ImageExists`: an
oracle error is returned, a `false` answer breaks out early, and exhausting
the budget with the resource still present falls through without error.
-/

/-- Existence poll of `cleanup`: `.ok ()` both when the resource disappears
and when the budget runs out with it still present; only an oracle error
fails. -/
def existsLoopAux (exists? : Nat → Except String Bool) :
    Nat → Nat → Except String Unit
  | _, 0 => .ok ()
  | i, fuel + 1 =>
    match exists? i with
    | .error e => .error e
    | .ok b =>
      if b then existsLoopAux exists? (i + 1) fuel
      else .ok ()

/-- The `cleanup` phase: remote done-file removal, detach, wait for the
volume to return to available, volume deletion with its existence poll,
image deregistration with its existence poll, and the policy-gated bucket
deletion. -/
def cleanupPhase (rmDone : Except String String) (detach : Except String Unit)
    (getVolumeState : Nat → Except String VolumeState)
    (deleteVol : Except String Unit) (volExists : Nat → Except String Bool)
    (deregister : Except String Unit) (imgExists : Nat → Except String Bool)
    (deleteBucketArchive : Bool) (deleteBucket : Except String Unit)
    (volumeId : String) (maxWait : Nat) : Except String Unit :=
  match rmDone with
  | .error e => .error e
  | .ok _ =>
    match detach with
    | .error e => .error e
    | .ok _ =>
      match (waitForVolumeState getVolumeState volumeId
          VolumeState.available maxWait).1 with
      | .error e => .error e
      | .ok _ =>
        match deleteVol with
        | .error e => .error e
        | .ok _ =>
          match existsLoopAux volExists 0 maxWait with
          | .error e => .error e
          | .ok _ =>
            match deregister with
            | .error e => .error e
            | .ok _ =>
              match existsLoopAux imgExists 0 maxWait with
              | .error e => .error e
              | .ok _ =>
                if deleteBucketArchive then deleteBucket else .ok ()

/-!
Preprocess of the workflow file: the phase sequence with its early returns.
Each phase's outcome is an oracle parameter; the trace records the phases
that were invoked.
-/

/-- The four phases of `Preprocess`. -/
inductive Phase
  | copy
  | generate
  | download
  | cleanup
  deriving DecidableEq

/-- The `Preprocess` method: runs copy, generate, download and cleanup in
order, returning at the first phase error with a wrapped message; cleanup is
invoked with the hardcoded `deleteBucketArchive := false`.  The second
component is the list of phases that were invoked. -/
def preprocess (copyR generateR downloadR : Except String Unit)
    (cleanupR : Bool → Except String Unit)
    (sourceImageId archiveName bucketName : String) :
    Except String String × List Phase :=
  match copyR with
  | .error e =>
    (.error ("error copying image " ++ sourceImageId ++
      " to HashR project: " ++ e), [Phase.copy])
  | .ok _ =>
    match generateR with
    | .error e =>
      (.error ("error generating disk archive of the image " ++
        sourceImageId ++ ": " ++ e), [Phase.copy, Phase.generate])
    | .ok _ =>
      match downloadR with
      | .error e =>
        (.error ("error downloading disk archive " ++ archiveName ++
          " from S3 bucket " ++ bucketName ++ ": " ++ e),
          [Phase.copy, Phase.generate, Phase.download])
      | .ok _ =>
        match cleanupR false with
        | .error e =>
          (.error ("error deleting the archive " ++ archiveName ++
            " from S3 bucket " ++ bucketName ++ ": " ++ e),
            [Phase.copy, Phase.generate, Phase.download, Phase.cleanup])
        | .ok _ =>
          (.ok "", [Phase.copy, Phase.generate, Phase.download, Phase.cleanup])

/-!
Helper lemmas shared by the claim theorems.
-/

/-- A SHA-256 hex digest is never the empty string. -/
theorem sha256hex_ne_empty (ms : List Nat) : sha256hex ms ≠ "" := by
  intro h
  have h2 := congrArg String.data h
  simp [sha256hex, wordHexChars] at h2

/-- An exists-poll whose oracle keeps answering `true` falls through without
error. -/
theorem existsLoopAux_all_true (ex : Nat → Except String Bool) :
    ∀ fuel i, (∀ j, i ≤ j → j < i + fuel → ex j = .ok true) →
      existsLoopAux ex i fuel = .ok () := by
  intro fuel
  induction fuel with
  | zero => intro i _; rfl
  | succ n ih =>
    intro i h
    have hi : ex i = .ok true := h i (Nat.le_refl i) (by omega)
    simp only [existsLoopAux, hi]
    exact ih (i + 1) (fun j hj1 hj2 => h j (by omega) (by omega))

/-- Characterization of a successful first-fit scan: the returned device is
the free suffix all of whose predecessors in the alphabet are used. -/
theorem scanDeviceIds_ok_iff (used : List String) :
    ∀ (l : List String) (d : String),
      scanDeviceIds used l = .ok d ↔
        ∃ l1 c l2, l = l1 ++ c :: l2 ∧
          (∀ x ∈ l1, ("/dev/sd" ++ x) ∈ used) ∧
          ("/dev/sd" ++ c) ∉ used ∧ d = "/dev/sd" ++ c := by
  intro l
  induction l with
  | nil =>
    intro d
    constructor
    · intro h; exact absurd h (by simp [scanDeviceIds])
    · rintro ⟨l1, c, l2, h, -, -, -⟩
      exact absurd h (by cases l1 <;> simp)
  | cons a l ih =>
    intro d
    by_cases ha : ("/dev/sd" ++ a) ∈ used
    · rw [show scanDeviceIds used (a :: l) = scanDeviceIds used l from by
        simp [scanDeviceIds, ha]]
      rw [ih d]
      constructor
      · rintro ⟨l1, c, l2, hl, hall, hc, hd⟩
        exact ⟨a :: l1, c, l2, by simp [hl], by
          intro x hx
          rcases List.mem_cons.mp hx with h1 | h2
          · exact h1 ▸ ha
          · exact hall x h2, hc, hd⟩
      · rintro ⟨l1, c, l2, hl, hall, hc, hd⟩
        cases l1 with
        | nil =>
          simp at hl
          exact absurd (hl.1 ▸ ha) hc
        | cons x l1 =>
          simp at hl
          obtain ⟨hax, hrest⟩ := hl
          exact ⟨l1, c, l2, hrest,
            fun y hy => hall y (List.mem_cons_of_mem x hy), hc, hd⟩
    · rw [show scanDeviceIds used (a :: l) = .ok ("/dev/sd" ++ a) from by
        simp [scanDeviceIds, ha]]
      constructor
      · intro h
        have hd : d = "/dev/sd" ++ a := by simp at h; exact h.symm
        exact ⟨[], a, l, rfl, by simp, ha, hd⟩
      · rintro ⟨l1, c, l2, hl, hall, hc, hd⟩
        cases l1 with
        | nil =>
          simp at hl
          rw [hd, hl.1]
        | cons x l1 =>
          simp at hl
          exact absurd (hall x (by simp)) (hl.1 ▸ ha)

/-- Characterization of a failed first-fit scan: the scan fails exactly when
every suffix in the scanned list is used. -/
theorem scanDeviceIds_error_iff (used : List String) :
    ∀ l : List String,
      scanDeviceIds used l = .error "no free device to use in attachment" ↔
        ∀ c ∈ l, ("/dev/sd" ++ c) ∈ used := by
  intro l
  induction l with
  | nil => simp [scanDeviceIds]
  | cons a l ih =>
    by_cases ha : ("/dev/sd" ++ a) ∈ used
    · rw [show scanDeviceIds used (a :: l) = scanDeviceIds used l from by
        simp [scanDeviceIds, ha]]
      rw [ih]
      simp [ha]
    · rw [show scanDeviceIds used (a :: l) = .ok ("/dev/sd" ++ a) from by
        simp [scanDeviceIds, ha]]
      simp [ha]

/-- The only error the first-fit scan produces is the exhaustion message. -/
theorem scanDeviceIds_error_msg (used : List String) :
    ∀ (l : List String) (e : String), scanDeviceIds used l = .error e →
      e = "no free device to use in attachment" := by
  intro l
  induction l with
  | nil => intro e h; simpa [scanDeviceIds] using h.symm
  | cons a l ih =>
    intro e h
    by_cases ha : ("/dev/sd" ++ a) ∈ used
    · rw [show scanDeviceIds used (a :: l) = scanDeviceIds used l from by
        simp [scanDeviceIds, ha]] at h
      exact ih e h
    · rw [show scanDeviceIds used (a :: l) = .ok ("/dev/sd" ++ a) from by
        simp [scanDeviceIds, ha]] at h
      exact absurd h (by simp)

/-- The volume wait loop with an oracle that never reaches the target:
each iteration queries once, and the budget is consumed exactly. -/
theorem waitForVolumeStateAux_never (g : Nat → Except String VolumeState)
    (target : VolumeState) (msg : String) :
    ∀ fuel i, (∀ j, i ≤ j → j < i + fuel → g j ≠ .ok target) →
      waitForVolumeStateAux g target msg i fuel = (.error msg, i + fuel) := by
  intro fuel
  induction fuel with
  | zero => intro i _; rfl
  | succ n ih =>
    intro i h
    have hnext : waitForVolumeStateAux g target msg (i + 1) n =
        (.error msg, i + 1 + n) :=
      ih (i + 1) (fun j hj1 hj2 => h j (by omega) (by omega))
    have harith : i + 1 + n = i + (n + 1) := by omega
    cases hg : g i with
    | error e => simp only [waitForVolumeStateAux, hg]; rw [hnext, harith]
    | ok s =>
      have hs : s ≠ target := by
        intro hst
        exact h i (Nat.le_refl i) (by omega) (hst ▸ hg)
      simp only [waitForVolumeStateAux, hg, if_neg hs]
      rw [hnext, harith]

/-- The volume wait loop returns success at the first attempt whose query
observes the target state, counting one query per earlier attempt. -/
theorem waitForVolumeStateAux_first (g : Nat → Except String VolumeState)
    (target : VolumeState) (msg : String) :
    ∀ fuel i k, i ≤ k → k < i + fuel → g k = .ok target →
      (∀ j, i ≤ j → j < k → g j ≠ .ok target) →
      waitForVolumeStateAux g target msg i fuel = (.ok (), k + 1) := by
  intro fuel
  induction fuel with
  | zero => intro i k h1 h2 _ _; omega
  | succ n ih =>
    intro i k h1 h2 hk hnone
    by_cases hik : i = k
    · subst hik
      simp [waitForVolumeStateAux, hk]
    · have hlt : i < k := by omega
      have hgi : g i ≠ .ok target := hnone i (Nat.le_refl i) hlt
      have hrec := ih (i + 1) k (by omega) (by omega) hk
        (fun j hj1 hj2 => hnone j (by omega) hj2)
      cases hg : g i with
      | error e => simp only [waitForVolumeStateAux, hg]; exact hrec
      | ok s =>
        have hs : s ≠ target := fun hst => hgi (hst ▸ hg)
        simp only [waitForVolumeStateAux, hg, if_neg hs]
        exact hrec

/-- A successful attachment wait exhibits an attempt whose attachments hold
the target state on the requested instance. -/
theorem waitForAttachmentStateAux_ok
    (g : Nat → Except String (List VolumeAttachment))
    (inst : String) (target : VolumeAttachmentState) (msg : String) :
    ∀ fuel i, waitForAttachmentStateAux g inst target msg i fuel = .ok () →
      ∃ j, i ≤ j ∧ j < i + fuel ∧ ∃ atts, g j = .ok atts ∧
        ∃ att ∈ atts, att.state = target ∧ att.instanceId = inst := by
  intro fuel
  induction fuel with
  | zero => intro i h; exact absurd h (by simp [waitForAttachmentStateAux])
  | succ n ih =>
    intro i h
    cases hg : g i with
    | error e =>
      rw [show waitForAttachmentStateAux g inst target msg i (n + 1) =
        waitForAttachmentStateAux g inst target msg (i + 1) n from by
          simp only [waitForAttachmentStateAux, hg]] at h
      obtain ⟨j, hj1, hj2, hrest⟩ := ih (i + 1) h
      exact ⟨j, by omega, by omega, hrest⟩
    | ok atts =>
      by_cases hex : ∃ att ∈ atts, att.state = target ∧ att.instanceId = inst
      · exact ⟨i, Nat.le_refl i, by omega, atts, hg, hex⟩
      · rw [show waitForAttachmentStateAux g inst target msg i (n + 1) =
          waitForAttachmentStateAux g inst target msg (i + 1) n from by
            simp only [waitForAttachmentStateAux, hg, if_neg hex]] at h
        obtain ⟨j, hj1, hj2, hrest⟩ := ih (i + 1) h
        exact ⟨j, by omega, by omega, hrest⟩

/-- An attachment wait whose oracle never exhibits the (state, instance)
pair times out. -/
theorem waitForAttachmentStateAux_none
    (g : Nat → Except String (List VolumeAttachment))
    (inst : String) (target : VolumeAttachmentState) (msg : String) :
    ∀ fuel i,
      (∀ j, i ≤ j → j < i + fuel → ∀ atts, g j = .ok atts →
        ¬ ∃ att ∈ atts, att.state = target ∧ att.instanceId = inst) →
      waitForAttachmentStateAux g inst target msg i fuel = .error msg := by
  intro fuel
  induction fuel with
  | zero => intro i _; rfl
  | succ n ih =>
    intro i h
    have hnext := ih (i + 1) (fun j hj1 hj2 => h j (by omega) (by omega))
    cases hg : g i with
    | error e => simp only [waitForAttachmentStateAux, hg]; exact hnext
    | ok atts =>
      have hex := h i (Nat.le_refl i) (by omega) atts hg
      simp only [waitForAttachmentStateAux, hg, if_neg hex]
      exact hnext

/-!
Claim C1: whether cleanup runs regardless of earlier phase failures.
-/

/-- Claim C1, counterexample: when the copy phase fails, `Preprocess` returns
the wrapped copy error immediately and the cleanup phase is never invoked —
cleanup does not run regardless of which earlier phase failed. -/
theorem c1_cleanup_skipped_on_copy_failure :
    Phase.cleanup ∉ (preprocess (.error "AccessDenied") (.ok ()) (.ok ())
      (fun _ => .ok ()) "ami-7" "ami-7-raw.dd.gz" "hashr-bucket").2 ∧
    (preprocess (.error "AccessDenied") (.ok ()) (.ok ())
      (fun _ => .ok ()) "ami-7" "ami-7-raw.dd.gz" "hashr-bucket").1 =
      .error "error copying image ami-7 to HashR project: AccessDenied" :=
  ⟨by decide, rfl⟩

/-- Claim C1, amended: `Preprocess` invokes the cleanup phase exactly when
the copy, generate and download phases all succeeded; a failure in any
earlier phase returns without running cleanup. -/
theorem c1_cleanup_only_on_success :
    ∀ (c g d : Except String Unit) (cl : Bool → Except String Unit)
      (sid an bn : String),
      Phase.cleanup ∈ (preprocess c g d cl sid an bn).2 ↔
        c = .ok () ∧ g = .ok () ∧ d = .ok () := by
  intro c g d cl sid an bn
  cases c with
  | error e => simp [preprocess]
  | ok u =>
    cases u
    cases g with
    | error e => simp [preprocess]
    | ok u =>
      cases u
      cases d with
      | error e => simp [preprocess]
      | ok u =>
        cases u
        cases hcl : cl false with
        | error e => simp [preprocess, hcl]
        | ok u => cases u; simp [preprocess, hcl]

/-- Claim C1, witness: a run with all phases succeeding does reach
cleanup. -/
theorem c1_cleanup_only_on_success_witness :
    Phase.cleanup ∈ (preprocess (.ok ()) (.ok ()) (.ok ())
      (fun _ => .ok ()) "ami-7" "a" "b").2 :=
  (c1_cleanup_only_on_success (.ok ()) (.ok ()) (.ok ())
    (fun _ => .ok ()) "ami-7" "a" "b").mpr ⟨rfl, rfl, rfl⟩

/-!
Claim C2: idempotence of DeleteVolume and DeregisterImage on already-removed
resources.
-/

/-- Claim C2, counterexample: `DeleteVolume` and `DeregisterImage` are plain
wrappers over one control-plane call; when the control plane rejects the
operation on a resource that no longer exists (as EC2 does, with NotFound),
the wrapped error is returned, not success. -/
theorem c2_delete_notfound_errors :
    deleteVolume "vol-0abc" (ec2DeleteVolumeApi [] "vol-0abc") ≠ .ok () ∧
    deleteVolume "vol-0abc" (ec2DeleteVolumeApi [] "vol-0abc") =
      .error ("error deleting the volume vol-0abc: " ++
        "InvalidVolume.NotFound: The volume vol-0abc does not exist") ∧
    deregisterImage "ami-0abc" (ec2DeregisterImageApi [] "ami-0abc") ≠
      .ok () :=
  ⟨by decide, by decide, by decide⟩

/-- Claim C2, amended: `DeleteVolume` (respectively `DeregisterImage`)
returns success exactly when the underlying API call returns success; an API
error for an already-removed resource is propagated as an error, with no
already-absent condition swallowed. -/
theorem c2_delete_deregister_passthrough :
    ∀ (id : String) (r : Except String Unit),
      (deleteVolume id r = .ok () ↔ r = .ok ()) ∧
      (deregisterImage id r = .ok () ↔ r = .ok ()) := by
  intro id r
  cases r with
  | error e => simp [deleteVolume, deregisterImage]
  | ok u => cases u; simp [deleteVolume, deregisterImage]

/-- Claim C2, witness: a delete whose API call succeeds returns success. -/
theorem c2_delete_deregister_passthrough_witness :
    deleteVolume "vol-1" (.ok ()) = .ok () :=
  (c2_delete_deregister_passthrough "vol-1" (.ok ())).1.mpr rfl

/-!
Claim C8: volume resolution in the generate phase.
-/

/-- Claim C8: when the first mapping's snapshot is bound to the unbound
sentinel `vol-ffffffff`, `generate` calls `CreateVolume` exactly once, with
the first mapping's snapshot and declared size and the target zone, and its
result becomes the working volume; otherwise the snapshot's bound volume is
reused and `CreateVolume` is not called. -/
theorem c8_resolve_volume :
    ∀ (imageId : String) (m0 : BlockDeviceMapping)
      (rest : List BlockDeviceMapping) (snap : Snapshot)
      (createVolume : String → Int → String → Except String String)
      (region : String),
      (snap.volumeId = "vol-ffffffff" →
        ∀ v, createVolume m0.snapshotId m0.volumeSize region = .ok v →
          resolveVolume imageId (m0 :: rest) (.ok snap) createVolume region =
            .ok (v, [(m0.snapshotId, m0.volumeSize, region)])) ∧
      (snap.volumeId ≠ "vol-ffffffff" →
        resolveVolume imageId (m0 :: rest) (.ok snap) createVolume region =
          .ok (snap.volumeId, [])) := by
  intro imageId m0 rest snap createVolume region
  constructor
  · intro hs v hv
    simp [resolveVolume, hs, hv]
  · intro hs
    simp [resolveVolume, hs]

/-- Claim C8, witness: both branches at concrete inputs. -/
theorem c8_resolve_volume_witness :
    resolveVolume "ami-c" [⟨"snap-1", 8⟩] (.ok ⟨"snap-1", "vol-ffffffff"⟩)
      (fun _ _ _ => .ok "vol-new") "us-east-1a" =
      .ok ("vol-new", [("snap-1", 8, "us-east-1a")]) ∧
    resolveVolume "ami-c" [⟨"snap-1", 8⟩] (.ok ⟨"snap-1", "vol-123"⟩)
      (fun _ _ _ => .ok "vol-new") "us-east-1a" = .ok ("vol-123", []) :=
  ⟨(c8_resolve_volume "ami-c" ⟨"snap-1", 8⟩ [] ⟨"snap-1", "vol-ffffffff"⟩
      (fun _ _ _ => .ok "vol-new") "us-east-1a").1 rfl "vol-new" rfl,
   (c8_resolve_volume "ami-c" ⟨"snap-1", 8⟩ [] ⟨"snap-1", "vol-123"⟩
      (fun _ _ _ => .ok "vol-new") "us-east-1a").2 (by decide)⟩

/-!
Claim C9: device-name fallback when the remote listing fails.
-/

/-- Claim C9: when the remote listing of used devices fails,
`GetAvailableDeviceName` swallows the error and returns the fixed device
name `/dev/sdh` — a name outside the i..z allocation alphabet — with a nil
error, consulting no usage information. -/
theorem c9_ssh_failure_fallback :
    ∀ e : String,
      getAvailableDeviceName (.error e) = .ok "/dev/sdh" ∧
      "/dev/sdh" ∉ deviceIds.map (fun c => "/dev/sd" ++ c) := by
  intro e
  exact ⟨rfl, by decide⟩

/-- Claim C9, witness: the fallback at a concrete SSH error. -/
theorem c9_ssh_failure_fallback_witness :
    getAvailableDeviceName (.error "ssh: connect refused") = .ok "/dev/sdh" :=
  (c9_ssh_failure_fallback "ssh: connect refused").1

/-!
Claim C10: the cleanup existence polls cannot fail by timeout.
-/

/-- Claim C10: the cleanup polls that wait for the deleted volume and the
deregistered image to stop existing cannot fail by timeout: even when both
resources still exist after the full attempt budget (the oracles answer
`true` on every attempt), the loops fall through and cleanup returns overall
success. -/
theorem c10_exists_polls_no_timeout :
    ∀ (rmOut : String) (getVolState : Nat → Except String VolumeState)
      (volExists imgExists : Nat → Except String Bool)
      (deleteBucket : Except String Unit) (volumeId : String) (maxWait : Nat),
      (waitForVolumeState getVolState volumeId VolumeState.available
        maxWait).1 = .ok () →
      (∀ i, i < maxWait → volExists i = .ok true) →
      (∀ i, i < maxWait → imgExists i = .ok true) →
      cleanupPhase (.ok rmOut) (.ok ()) getVolState (.ok ()) volExists
        (.ok ()) imgExists false deleteBucket volumeId maxWait = .ok () := by
  intro rmOut getVolState volExists imgExists deleteBucket volumeId maxWait
    hw hv hi
  have hvl : existsLoopAux volExists 0 maxWait = .ok () :=
    existsLoopAux_all_true volExists maxWait 0
      (fun j hj1 hj2 => hv j (by omega))
  have hil : existsLoopAux imgExists 0 maxWait = .ok () :=
    existsLoopAux_all_true imgExists maxWait 0
      (fun j hj1 hj2 => hi j (by omega))
  simp [cleanupPhase, hw, hvl, hil]

/-- Claim C10, witness: with a three-attempt budget and resources that never
disappear, cleanup still succeeds. -/
theorem c10_exists_polls_no_timeout_witness :
    cleanupPhase (.ok "") (.ok ()) (fun _ => .ok VolumeState.available)
      (.ok ()) (fun _ => .ok true) (.ok ()) (fun _ => .ok true) false
      (.ok ()) "vol-1" 3 = .ok () :=
  c10_exists_polls_no_timeout "" (fun _ => .ok VolumeState.available)
    (fun _ => .ok true) (fun _ => .ok true) (.ok ()) "vol-1" 3
    (by decide) (fun i _ => rfl) (fun i _ => rfl)

/-!
Claim C4: deterministic first-fit device allocation over the alphabet i..z.
-/

/-- Claim C4: device allocation is deterministic first-fit over the fixed
alphabet i..z — the allocator returns the device of the first suffix whose
path is absent from the used set (every earlier suffix being used), it fails
exactly when every suffix is used, a successful remote listing feeds the
newline-split output into the scan, and the used set consisting of
`/dev/sdi` and `/dev/sdj` yields `/dev/sdk`. -/
theorem c4_device_first_fit :
    (∀ (used : List String) (d : String),
      scanDeviceIds used deviceIds = .ok d ↔
        ∃ l1 c l2, deviceIds = l1 ++ c :: l2 ∧
          (∀ x ∈ l1, ("/dev/sd" ++ x) ∈ used) ∧
          ("/dev/sd" ++ c) ∉ used ∧ d = "/dev/sd" ++ c) ∧
    (∀ used : List String,
      (∃ e, scanDeviceIds used deviceIds = .error e) ↔
        ∀ c ∈ deviceIds, ("/dev/sd" ++ c) ∈ used) ∧
    (∀ output : String, getAvailableDeviceName (.ok output) =
      scanDeviceIds (output.splitOn "\n") deviceIds) ∧
    scanDeviceIds ["/dev/sdi", "/dev/sdj"] deviceIds = .ok "/dev/sdk" := by
  refine ⟨fun used d => scanDeviceIds_ok_iff used deviceIds d,
    fun used => ⟨?_, ?_⟩, fun output => rfl, by decide⟩
  · rintro ⟨e, he⟩
    exact (scanDeviceIds_error_iff used deviceIds).mp
      ((scanDeviceIds_error_msg used deviceIds e he) ▸ he)
  · intro hall
    exact ⟨"no free device to use in attachment",
      (scanDeviceIds_error_iff used deviceIds).mpr hall⟩

/-- Claim C4, witness: the scan on the used set of the spec's example
returns `/dev/sdk`, derived through the characterization. -/
theorem c4_device_first_fit_witness :
    scanDeviceIds ["/dev/sdi", "/dev/sdj"] deviceIds = .ok "/dev/sdk" :=
  (c4_device_first_fit.1 ["/dev/sdi", "/dev/sdj"] "/dev/sdk").mpr
    ⟨["i", "j"], "k",
     ["l", "m", "n", "o", "p", "q", "r", "s", "t", "u", "v", "w", "x", "y",
      "z"], by decide, by decide, by decide, by decide⟩

/-!
Claim C5: the volume-state wait loop's attempt accounting.
-/

/-- Claim C5: when the target state is never observed, `waitForVolumeState`
queries the state exactly `maxAttempts` times and then fails with the
timeout message naming the awaited condition; when the target state is first
observed at attempt k, it returns success immediately, after exactly k + 1
queries. -/
theorem c5_wait_volume_boundary :
    ∀ (getState : Nat → Except String VolumeState) (volumeId : String)
      (target : VolumeState) (maxWait : Nat),
      ((∀ i, i < maxWait → getState i ≠ .ok target) →
        waitForVolumeState getState volumeId target maxWait =
          (.error (volumeTimeoutMsg volumeId target maxWait), maxWait)) ∧
      (∀ k, k < maxWait → getState k = .ok target →
        (∀ j, j < k → getState j ≠ .ok target) →
        waitForVolumeState getState volumeId target maxWait =
          (.ok (), k + 1)) := by
  intro getState volumeId target maxWait
  constructor
  · intro h
    have := waitForVolumeStateAux_never getState target
      (volumeTimeoutMsg volumeId target maxWait) maxWait 0
      (fun j _ hj2 => h j (by omega))
    simpa [waitForVolumeState] using this
  · intro k hk hkt hnone
    exact waitForVolumeStateAux_first getState target
      (volumeTimeoutMsg volumeId target maxWait) maxWait 0 k (by omega)
      (by omega) hkt (fun j _ hj2 => hnone j hj2)

/-- Claim C5, witness: a never-available volume times out after exactly
three queries of a three-attempt budget, and an immediately-available volume
succeeds after one query. -/
theorem c5_wait_volume_boundary_witness :
    waitForVolumeState (fun _ => .ok VolumeState.inUse) "vol-1"
      VolumeState.available 3 =
      (.error (volumeTimeoutMsg "vol-1" VolumeState.available 3), 3) ∧
    waitForVolumeState (fun _ => .ok VolumeState.available) "vol-1"
      VolumeState.available 3 = (.ok (), 1) :=
  ⟨(c5_wait_volume_boundary (fun _ => .ok VolumeState.inUse) "vol-1"
      VolumeState.available 3).1 (by decide),
   (c5_wait_volume_boundary (fun _ => .ok VolumeState.available) "vol-1"
      VolumeState.available 3).2 0 (by decide) rfl
      (fun j hj => absurd hj (Nat.not_lt_zero j))⟩

/-!
Claim C7: the attachment wait is specific to the (volume, host) pair.
-/

/-- Claim C7: `waitForAttachmentState` returns success only when some
attempt reports an attachment with both the target state and the requested
instance identifier; when every reported attachment in the target state is
on a different instance, the wait times out instead. -/
theorem c7_attachment_pair_specific :
    ∀ (g : Nat → Except String (List VolumeAttachment))
      (volumeId instanceId : String) (target : VolumeAttachmentState)
      (maxWait : Nat),
      (waitForAttachmentState g volumeId instanceId target maxWait =
          .ok () →
        ∃ i, i < maxWait ∧ ∃ atts, g i = .ok atts ∧
          ∃ att ∈ atts, att.state = target ∧
            att.instanceId = instanceId) ∧
      ((∀ i, i < maxWait → ∀ atts, g i = .ok atts → ∀ att ∈ atts,
          att.state = target → att.instanceId ≠ instanceId) →
        waitForAttachmentState g volumeId instanceId target maxWait =
          .error (attachTimeoutMsg volumeId instanceId maxWait)) := by
  intro g volumeId instanceId target maxWait
  constructor
  · intro h
    obtain ⟨j, hj1, hj2, hrest⟩ := waitForAttachmentStateAux_ok g instanceId
      target (attachTimeoutMsg volumeId instanceId maxWait) maxWait 0 h
    exact ⟨j, by omega, hrest⟩
  · intro h
    exact waitForAttachmentStateAux_none g instanceId target
      (attachTimeoutMsg volumeId instanceId maxWait) maxWait 0
      (fun j _ hj2 atts hatts => by
        rintro ⟨att, hmem, hstate, hinst⟩
        exact h j (by omega) atts hatts att hmem hstate hinst)

/-- Claim C7, witness: an attachment in the target state on a different
instance does not satisfy the wait — the loop times out. -/
theorem c7_attachment_pair_specific_witness :
    waitForAttachmentState
      (fun _ => .ok [⟨"i-other", VolumeAttachmentState.attached⟩])
      "vol-1" "i-1" VolumeAttachmentState.attached 3 =
      .error (attachTimeoutMsg "vol-1" "i-1" 3) :=
  (c7_attachment_pair_specific
    (fun _ => .ok [⟨"i-other", VolumeAttachmentState.attached⟩])
    "vol-1" "i-1" VolumeAttachmentState.attached 3).2
    (by
      intro i hi atts hatts att hmem hst
      cases hatts
      simp at hmem
      subst hmem
      decide)

/-!
Claim C3: whether the copy phase's availability poll tolerates transient
describe errors.
-/

/-- Claim C3, counterexample: a transient error from the first describe
query aborts the copy phase with that error, even though the very next
attempt would have reported the image available — the poll does not treat
the error as "not yet satisfied" and does not continue. -/
theorem c3_copy_poll_abort_cex :
    copyPhase "ami-7"
      (some ⟨"ami-7", "2023-01-01", "", "n", "d", ImageState.available, []⟩)
      (.ok "us-east-1") (.ok "ami-copy")
      (fun i => if i = 0 then .error "RequestLimitExceeded"
        else .ok ⟨"ami-copy", "", "", "", "", ImageState.available, []⟩)
      5 = .error "RequestLimitExceeded" := rfl

/-- Claim C3, amended: in the copy phase's availability poll, an error from
the describe-image query aborts the phase immediately with that error; only
the volume-state, attachment-state and completion-marker polls treat
transient errors as "not yet satisfied". -/
theorem c3_copy_poll_error_aborts :
    ∀ (sid region copyId : String) (img : Image)
      (g : Nat → Except String Image) (maxWait : Nat) (e : String),
      sid ≠ "" → 0 < maxWait → g 0 = .error e →
      copyPhase sid (some img) (.ok region) (.ok copyId) g maxWait =
        .error e := by
  intro sid region copyId img g maxWait e hsid hmax hg0
  unfold copyPhase
  rw [if_neg hsid]
  cases maxWait with
  | zero => omega
  | succ n => simp [copyLoopAux, hg0]

/-- Claim C3, witness: a throttled first describe aborts a three-attempt
copy poll. -/
theorem c3_copy_poll_error_aborts_witness :
    copyPhase "ami-9"
      (some ⟨"ami-9", "2024-05-05", "", "n", "d", ImageState.available, []⟩)
      (.ok "eu-west-1") (.ok "ami-copy-9")
      (fun _ => .error "Throttling") 3 = .error "Throttling" :=
  c3_copy_poll_error_aborts "ami-9" "eu-west-1" "ami-copy-9"
    ⟨"ami-9", "2024-05-05", "", "n", "d", ImageState.available, []⟩
    (fun _ => .error "Throttling") 3 "Throttling" (by decide) (by omega) rfl

/-!
Claim C6: what the quick hash is a function of.
-/

/-- The hash recorded by a successful `QuickSHA256Hash` call is cached in
the receiver and is never the empty string. -/
theorem quickSHA256Hash_result (g : Option (String → Except String Image))
    (a : AwsImage) (h : String) (a2 : AwsImage)
    (hc : quickSHA256Hash g a = .ok (h, a2)) :
    a2.quickSha256hash = h ∧ h ≠ "" := by
  unfold quickSHA256Hash at hc
  split at hc
  next hq =>
    obtain ⟨h1, h2⟩ : a.quickSha256hash = h ∧ a = a2 := by simpa using hc
    subst h2
    exact ⟨h1, h1 ▸ hq⟩
  next hq =>
    split at hc
    next img hsi =>
      obtain ⟨h1, h2⟩ : sha256hex (utf8Bytes (quickHashData img)) = h ∧ _ = a2 := by
        simpa using hc
      subst h2
      exact ⟨h1, h1 ▸ sha256hex_ne_empty _⟩
    next hsi =>
      split at hc
      next hsid => simp at hc
      next hsid =>
        split at hc
        next => simp at hc
        next get0 =>
          split at hc
          next e hget => simp at hc
          next img hget =>
            obtain ⟨h1, h2⟩ : sha256hex (utf8Bytes (quickHashData img)) = h ∧ _ = a2 := by
              simpa using hc
            subst h2
            exact ⟨h1, h1 ▸ sha256hex_ne_empty _⟩

/-- A second `QuickSHA256Hash` call on the receiver returned by a first
successful call returns the same hash and leaves the receiver unchanged. -/
theorem quickSHA256Hash_stable (g : Option (String → Except String Image))
    (a : AwsImage) (h : String) (a2 : AwsImage)
    (hc : quickSHA256Hash g a = .ok (h, a2)) :
    quickSHA256Hash g a2 = .ok (h, a2) := by
  obtain ⟨h1, h2⟩ := quickSHA256Hash_result g a h a2 hc
  unfold quickSHA256Hash
  rw [if_pos (by rw [h1]; exact h2)]
  rw [h1]

/-- The quick hash of a discovered image depends only on the concatenation
of its three identity fields. -/
theorem quickSHA256Hash_of_data (g : Option (String → Except String Image))
    (i1 i2 : Image) (hdata : quickHashData i1 = quickHashData i2) :
    (quickSHA256Hash g (mkAwsImage i1)).map Prod.fst =
    (quickSHA256Hash g (mkAwsImage i2)).map Prod.fst := by
  simp [quickSHA256Hash, mkAwsImage, Except.map, hdata]

/-- Claim C6, counterexample: two descriptors that differ in their creation
date and deprecation time (the claimed hash inputs) produce the same quick
hash, because the three fields are concatenated with no separator before
hashing. -/
theorem c6_distinct_inputs_equal_hash :
    (⟨"ami-1", "2x", "", "n1", "d1", ImageState.available, []⟩ : Image) ≠
      (⟨"ami-1", "2", "x", "n1", "d1", ImageState.available, []⟩ : Image) ∧
    (⟨"ami-1", "2x", "", "n1", "d1", ImageState.available, []⟩ :
      Image).creationDate ≠
      (⟨"ami-1", "2", "x", "n1", "d1", ImageState.available, []⟩ :
        Image).creationDate ∧
    (quickSHA256Hash none (mkAwsImage
      ⟨"ami-1", "2x", "", "n1", "d1", ImageState.available, []⟩)).map
        Prod.fst =
      (quickSHA256Hash none (mkAwsImage
        ⟨"ami-1", "2", "x", "n1", "d1", ImageState.available, []⟩)).map
          Prod.fst :=
  ⟨by decide, by decide,
   quickSHA256Hash_of_data none _ _ (by decide)⟩

/-- Claim C6, amended: the quick hash is stable across repeated calls on the
same descriptor, is unaffected by the name and description fields, and more
generally depends only on the separator-free concatenation of the source
image's ImageId, CreationDate and DeprecationTime — descriptors whose three
fields concatenate to the same string hash identically even when the fields
themselves differ. -/
theorem c6_quickhash_amended :
    (∀ (g : Option (String → Except String Image)) (a : AwsImage)
      (h : String) (a2 : AwsImage),
      quickSHA256Hash g a = .ok (h, a2) →
        quickSHA256Hash g a2 = .ok (h, a2)) ∧
    (∀ (g : Option (String → Except String Image)) (i1 i2 : Image),
      i1.imageId = i2.imageId → i1.creationDate = i2.creationDate →
      i1.deprecationTime = i2.deprecationTime →
      (quickSHA256Hash g (mkAwsImage i1)).map Prod.fst =
        (quickSHA256Hash g (mkAwsImage i2)).map Prod.fst) ∧
    (∀ (g : Option (String → Except String Image)) (i1 i2 : Image),
      quickHashData i1 = quickHashData i2 →
      (quickSHA256Hash g (mkAwsImage i1)).map Prod.fst =
        (quickSHA256Hash g (mkAwsImage i2)).map Prod.fst) :=
  ⟨quickSHA256Hash_stable,
   fun g i1 i2 h1 h2 h3 => quickSHA256Hash_of_data g i1 i2 (by
     unfold quickHashData
     rw [h1, h2, h3]),
   quickSHA256Hash_of_data⟩

/-- Claim C6, witness: two descriptors differing only in name and
description hash identically. -/
theorem c6_quickhash_amended_witness :
    (quickSHA256Hash none (mkAwsImage
      ⟨"ami-1", "2024-01-01", "none", "nameA", "descA",
        ImageState.available, []⟩)).map Prod.fst =
    (quickSHA256Hash none (mkAwsImage
      ⟨"ami-1", "2024-01-01", "none", "nameB", "descB",
        ImageState.available, []⟩)).map Prod.fst :=
  c6_quickhash_amended.2.1 none
    ⟨"ami-1", "2024-01-01", "none", "nameA", "descA",
      ImageState.available, []⟩
    ⟨"ami-1", "2024-01-01", "none", "nameB", "descB",
      ImageState.available, []⟩ rfl rfl rfl

end HashrAws
